import Mathlib

/-!
Shallow embedding of the NVMe-oF subsystem control plane of
`io-engine/src/subsys/nvmf/subsystem.rs`, together with proofs of the
behavioural claims about it.  Foreign SPDK calls (out of the repository)
are modelled as explicit parameters or as small state-passing functions;
each such model carries a doc comment saying what it stands for.
-/

namespace Nvmf

/-- The error taxonomy of `subsys/nvmf/Error` as used by `subsystem.rs`
(constructors keep the source variant names and fields). -/
inductive Error where
  | CreateTarget (msg : String)
  | Subsystem (source : Int) (nqn : String) (msg : String)
  | SubsystemBusy (nqn : String) (op : String)
  | Namespace (bdev : String) (msg : String)
  | HostCstrNul (host : String)
  | Transport (source : Int) (msg : String)
  | Listener (nqn : String) (trid : String)
deriving DecidableEq, Repr

/-- Returns `true` exactly on `Except.error`. -/
def isErr {ε α : Type} : Except ε α → Bool
  | .error _ => true
  | .ok _ => false

/-! ## NVMe completion status (Completion Interceptor model)

The raw completion status word of an NVMe completion queue entry:
phase `p`, status code `sc`, status code type `sct`, command retry
delay `crd`, more `m`, do-not-retry `dnr`. -/

structure CplStatus where
  p : Bool
  sc : Nat
  sct : Nat
  crd : Nat
  m : Bool
  dnr : Bool
deriving DecidableEq, Repr

/-- SPDK constant `SPDK_NVME_SCT_GENERIC`. -/
def SPDK_NVME_SCT_GENERIC : Nat := 0

/-- SPDK constant `SPDK_NVME_SCT_VENDOR_SPECIFIC`. -/
def SPDK_NVME_SCT_VENDOR_SPECIFIC : Nat := 7

/-- SPDK constant `SPDK_NVME_SC_CAPACITY_EXCEEDED` (generic status 0x81). -/
def SPDK_NVME_SC_CAPACITY_EXCEEDED : Nat := 0x81

/-- SPDK constant `SPDK_NVME_SC_RESERVATION_CONFLICT` (generic status 0x83). -/
def SPDK_NVME_SC_RESERVATION_CONFLICT : Nat := 0x83

/-- The `NvmeStatus` classification of a raw status, by status code type
(mirrors the foreign `spdk_rs::NvmeStatus` read via `status.status()`). -/
inductive NvmeStatus where
  | Generic (sc : Nat)
  | CommandSpecific (sc : Nat)
  | MediaError (sc : Nat)
  | Path (sc : Nat)
  | VendorSpecific (sc : Nat)
  | Reserved (sct : Nat) (sc : Nat)
deriving DecidableEq, Repr

/-- Model of `status.status()`: classify the raw status word by its `sct` field. -/
def CplStatus.status (st : CplStatus) : NvmeStatus :=
  match st.sct with
  | 0 => .Generic st.sc
  | 1 => .CommandSpecific st.sc
  | 2 => .MediaError st.sc
  | 3 => .Path st.sc
  | 7 => .VendorSpecific st.sc
  | s => .Reserved s st.sc

/-- Modelled from the spec: the foreign `NvmeStatus::is_no_space()`
predicate (defined in `spdk_rs`, not under `src/`): a
vendor/implementation-specific ENOSPC status (errno `ENOSPC = 28`).
It depends only on the `sct`/`sc` fields of the status. -/
def NvmeStatus.is_no_space : NvmeStatus → Bool
  | .VendorSpecific sc => sc = 28
  | _ => false

/-- Model of `NvmfSubsystem::nexus_cpl_error_cb`: the completion interceptor
installed for nexus controllers.  Returns the status as left in the
completion (an early return leaves the original in place; otherwise the
possibly updated status is written back). -/
def nexus_cpl_error_cb (st : CplStatus) : CplStatus :=
  if st.crd = 0 then
    st
  else
    match st.status with
    | .Generic sc =>
      if sc = SPDK_NVME_SC_RESERVATION_CONFLICT ∨
          sc = SPDK_NVME_SC_CAPACITY_EXCEEDED then
        { st with crd := 2 }
      else
        st
    | _ => st

/-- Model of `NvmfSubsystem::replica_cpl_error_cb`: the completion interceptor
installed for replica controllers. -/
def replica_cpl_error_cb (st : CplStatus) : CplStatus :=
  let st1 := if st.crd = 1 then { st with crd := 3 } else st
  if st1.status.is_no_space then
    { st1 with sct := SPDK_NVME_SCT_GENERIC, sc := SPDK_NVME_SC_CAPACITY_EXCEEDED }
  else
    st1

/-! ## State-Change Engine (`NvmfSubsystem::change_state`)

The driving function `f` is foreign; we model the sequence of its raw
return values as `r : Nat → Int` (`r n` is what the `n`-th invocation
returns) and the completion-callback statuses as `cb : Nat → Int`
(`cb n` is the status delivered on the one-shot channel created for the
`n`-th invocation). -/

/-- Constant `libc::EBUSY`. -/
def EBUSY : Int := 16

/-- Constant `libc::EALREADY`. -/
def EALREADY : Int := 114

/-- Observable outcome of the retry loop inside `change_state`: the
final `rc` (the negated return of the driving function), how many times
the driving function was invoked, how many 100 ms sleeps were awaited,
and the index of the invocation whose one-shot channel the caller is
left holding. -/
structure CsRun where
  rc : Int
  invocations : Nat
  sleeps : Nat
  lastIdx : Nat
deriving DecidableEq, Repr

/-- The retry loop of `NvmfSubsystem::change_state`, started at retry
counter `n` (the source starts it at 0).  Each iteration computes
`rc = -f(...)` and breaks when `rc != EBUSY || n >= 3`; otherwise it
increments `n`, sleeps 100 ms and retries.  (The guard here is the
negation of the source's break condition.) -/
def csLoop (r : Nat → Int) (n : Nat) : CsRun :=
  let rc := -(r n)
  if h : rc = EBUSY ∧ n < 3 then
    let t := csLoop r (n + 1)
    { t with invocations := t.invocations + 1, sleeps := t.sleeps + 1 }
  else
    ⟨rc, 1, 0, n⟩
termination_by 4 - n
decreasing_by omega

/-- Model of `NvmfSubsystem::change_state`: run the retry loop, then interpret
the final `rc`: `0` awaits the last channel's callback status (`Ok` on
0, `Subsystem` error otherwise), `EBUSY` yields `SubsystemBusy`, any
other value yields a `Subsystem` initiation error without awaiting the
callback. -/
def change_state (nqn op : String) (r cb : Nat → Int) : Except Error Unit :=
  let t := csLoop r 0
  if t.rc = 0 then
    if cb t.lastIdx = 0 then .ok ()
    else .error (.Subsystem (cb t.lastIdx) nqn (op ++ " failed"))
  else if t.rc = EBUSY then .error (.SubsystemBusy nqn op)
  else .error (.Subsystem t.rc nqn ("failed to initiate " ++ op))

/-- Model of `NvmfSubsystem::start`, with the registry modelled as the list of
NQNs of live subsystems (the spec's registry invariant: NQNs are
unique).  `listenRc` is the callback status `add_listener` resolves to
(modelled from the spec: the foreign listener addition acknowledges
with status 0 on success).  On state-change failure the subsystem is
shut down (`shutdown_unsafe`), which destroys it; the foreign destroy
removes its NQN from the registry (modelled from the spec's lifecycle:
subsystems are registry members for their entire lifetime). -/
def start (reg : List String) (nqn : String) (listenRc : Int)
    (r cb : Nat → Int) : Except Error String × List String :=
  if listenRc ≠ 0 then
    (.error (.Transport listenRc "Failed to add listener"), reg)
  else
    match change_state nqn "start" r cb with
    | .error e => (.error e, reg.erase nqn)
    | .ok _ => (.ok nqn, reg)

/-! ## Identity and naming -/

/-- Modelled from the spec: the fixed NQN prefix constant
`NVME_NQN_PREFIX` (defined in `constants.rs`, which is not under
`src/`); the spec fixes only that it is a fixed string constant shared
with peers; this is its value in the repository.  The proofs below
depend only on it containing no colon. -/
def NVME_NQN_PFX : String := "nqn.2019-05.io.openebs"

/-- Model of `make_nqn`: format the NQN as `<prefix>:<id>`. -/
def make_nqn (id : String) : String := NVME_NQN_PFX ++ ":" ++ id

/-- Rust `str::split(':')` at the character-list level: the (nonempty)
list of segments between colons, as used by `NqnTarget::lookup`. -/
def splitColon : List Char → List (List Char)
  | [] => [[]]
  | c :: cs =>
    if c = ':' then [] :: splitColon cs
    else
      match splitColon cs with
      | [] => [[c]]
      | p :: ps => (c :: p) :: ps

/-- The NQN parse performed by `NqnTarget::lookup` (lines 1146–1151):
split the NQN on `':'`, require exactly two parts whose first equals
the fixed constant, and return the second. -/
def parse_nqn (nqn : List Char) : Option (List Char) :=
  match splitColon nqn with
  | [p0, p1] => if p0 = NVME_NQN_PFX.data then some p1 else none
  | _ => none

/-! ## Destruction (`NvmfSubsystem::destroy_unsafe`) -/

/-- The part of the subsystem state destruction looks at: the
`destroying` flag of the foreign `spdk_nvmf_subsystem` struct. -/
structure DSubsys where
  destroying : Bool
deriving DecidableEq, Repr

/-- Modelled from the spec: the foreign `spdk_nvmf_subsystem_destroy` —
begins destruction of the subsystem (the `destroying` flag becomes set)
and returns 0 (spec scenario S6: the first `destroy_unsafe` returns 0,
and destruction is in progress afterwards). -/
def spdk_nvmf_subsystem_destroy (_s : DSubsys) : Int × DSubsys :=
  (0, ⟨true⟩)

/-- Model of `NvmfSubsystem::destroy_unsafe`: if destruction is already in
progress, warn and return `-EALREADY` without touching the subsystem;
otherwise invoke the foreign destroy. -/
def destroy_unsafe (s : DSubsys) : Int × DSubsys :=
  if s.destroying then (-EALREADY, s)
  else spdk_nvmf_subsystem_destroy s

/-! ## Namespace addition and subsystem construction -/

/-- The fields of `spdk_nvmf_ns_opts` the source sets explicitly (the
remaining fields are zeroed). -/
structure NsOpts where
  nsid : Nat
  nguid : List Nat
  anagrpid : Nat
  no_auto_visible : Bool
deriving DecidableEq, Repr

/-- The `spdk_nvmf_ns_opts` value `add_namespace` builds: NSID 0 (let
the target pick), the bdev UUID bytes as NGUID, ANA group 0, visible. -/
def mk_ns_opts (bdevUuid : List Nat) : NsOpts :=
  { nsid := 0, nguid := bdevUuid, anagrpid := 0, no_auto_visible := false }

/-- Model of `NvmfSubsystem::add_namespace`: build the namespace options with
the bdev's UUID bytes as the NGUID, forward the optional PTPL path to
the foreign `spdk_nvmf_subsystem_add_ns_ext` (modelled as the function
`add_ns_ext` of the options and PTPL path it is passed, returning the
NSID), and fail with `Namespace` exactly when the returned NSID is
< 1.  The options passed to the foreign call are returned alongside
the result so theorems can speak about them. -/
def add_namespace (bdevName : String) (bdevUuid : List Nat)
    (ptpl : Option String) (add_ns_ext : NsOpts → Option String → Int) :
    Except Error Unit × NsOpts :=
  let opts := mk_ns_opts bdevUuid
  let ns_id := add_ns_ext opts ptpl
  if ns_id < 1 then
    (.error (.Namespace bdevName "failed to add namespace ID"), opts)
  else
    (.ok (), opts)

/-- Constant `libc::EEXIST`. -/
def EEXIST : Int := 17

/-- Model of `NvmfSubsystem::new`: the foreign create can return a null pointer
(`createNull`); then the serial and model number are installed (foreign
returns `snRc`, `mnRc`).  Returns the result together with whether a
subsystem object exists afterwards: a serial/model failure propagates
with the created subsystem left in place. -/
def new (uuid : String) (createNull : Bool) (snRc mnRc : Int) :
    Except Error Unit × Bool :=
  if createNull then
    (.error (.Subsystem EEXIST uuid "ss ptr is null"), false)
  else if snRc ≠ 0 then
    (.error (.Subsystem snRc uuid "failed to set serial"), true)
  else if mnRc ≠ 0 then
    (.error (.Subsystem mnRc uuid "failed to set model number"), true)
  else
    (.ok (), true)

/-- Model of `NvmfSubsystem::set_ana_reporting`: gated on the
`NEXUS_NVMF_ANA_ENABLE` environment variable (`env`, `none` when the
variable is unset); a successful no-op unless the variable is exactly
`"1"`; when gated in, `anaRc` is the foreign
`spdk_nvmf_subsystem_set_ana_reporting` return, nonzero meaning
failure. -/
def set_ana_reporting (env : Option String) (nqn : String) (enable : Bool)
    (anaRc : Int) : Except Error Unit :=
  match env with
  | some s =>
    if s ≠ "1" then .ok ()
    else if anaRc ≠ 0 then
      .error (.Subsystem anaRc nqn
        ("failed to set ANA reporting, enable " ++ toString enable))
    else .ok ()
  | none => .ok ()

/-- Model of `NvmfSubsystem::try_from_with`, tracking cleanup: the result triple
is (returned value, a subsystem was created, the created subsystem was
destroyed before returning).  `claimed` is `bdev.is_claimed()`;
`createNull`/`snRc`/`mnRc` drive `new`; `env`/`anaRc` drive
`set_ana_reporting` (the created subsystem's NQN is
`make_nqn bdevName`); `allow_any(false)` has no failure path;
`add_ns_ext` drives `add_namespace`. -/
def try_from_with (bdevName : String) (bdevUuid : List Nat)
    (claimed : Bool) (createNull : Bool) (snRc mnRc : Int)
    (env : Option String) (anaRc : Int) (ptpl : Option String)
    (add_ns_ext : NsOpts → Option String → Int) :
    Except Error Unit × Bool × Bool :=
  if claimed then
    (.error (.CreateTarget "already shared"), false, false)
  else
    match new bdevName createNull snRc mnRc with
    | (.error e, ex) => (.error e, ex, false)
    | (.ok _, _) =>
      match set_ana_reporting env (make_nqn bdevName) false anaRc with
      | .error e => (.error e, true, false)
      | .ok _ =>
        match (add_namespace bdevName bdevUuid ptpl add_ns_ext).1 with
        | .error e => (.error e, true, true)
        | .ok _ => (.ok (), true, false)

/-! ## Host ACL (`NvmfSubsystem::set_allowed_hosts`) -/

/-- Returns `true` when the Rust string contains a NUL byte, which makes
`CString::new` (`NvmfSubsystem::cstr`) fail with `HostCstrNul`. -/
def hasNul (s : String) : Bool := s.data.contains (Char.ofNat 0)

/-- The state the ACL reconcile path operates on: the foreign target's
allowed-host list (in iteration order) together with the log of
`disconnect_host` requests issued. -/
structure AclState where
  hosts : List String
  disconnects : List String
deriving DecidableEq, Repr

/-- Modelled from the spec: the foreign `spdk_nvmf_subsystem_add_host`
on the ordered allowed-host list — adding a host is idempotent (spec
§4.C: "add every nqn in hosts (idempotent)"; the allowed hosts form an
ordered set). -/
def addHost (hosts : List String) (h : String) : List String :=
  if hosts.contains h then hosts else hosts ++ [h]

/-- Model of `NvmfSubsystem::allow_host`: convert the host to a C string
(failing with `HostCstrNul` on interior NULs), then add it to the
allowed-host list. -/
def allow_host (st : AclState) (h : String) : AclState × Option Error :=
  if hasNul h then (st, some (.HostCstrNul h))
  else ({ st with hosts := addHost st.hosts h }, none)

/-- Model of `NvmfSubsystem::allow_hosts`: allow each host in order, stopping at
the first failure (additions performed so far persist on the foreign
object). -/
def allow_hosts (st : AclState) : List String → AclState × Option Error
  | [] => (st, none)
  | h :: t =>
    match allow_host st h with
    | (st2, none) => allow_hosts st2 t
    | (st2, some e) => (st2, some e)

/-- The removal loop at the end of `set_allowed_hosts`: for each
snapshotted host, `disallow_host` (the foreign removal frees the entry,
modelled as erasing it from the list; an interior NUL fails first) and
then `disconnect_host` (modelled from the spec: the foreign disconnect
acknowledges with status 0; the request is appended to the log),
stopping at the first failure. -/
def disconnectLoop (st : AclState) : List String → AclState × Option Error
  | [] => (st, none)
  | h :: t =>
    if hasNul h then (st, some (.HostCstrNul h))
    else disconnectLoop ⟨st.hosts.erase h, st.disconnects ++ [h]⟩ t

/-- Model of `NvmfSubsystem::set_allowed_hosts`: an empty list is a no-op
returning `Ok`; otherwise allow every given host, snapshot the
currently allowed hosts that are not among the given ones (cloning the
names before mutating the list), and disallow-and-disconnect each of
them. -/
def set_allowed_hosts (st : AclState) (hosts : List String) :
    AclState × Option Error :=
  if hosts.isEmpty then (st, none)
  else
    match allow_hosts st hosts with
    | (st1, some e) => (st1, some e)
    | (st1, none) =>
      let hosts_to_disconnect :=
        st1.hosts.filter (fun h => !hosts.contains h)
      disconnectLoop st1 hosts_to_disconnect

/-! ## Registry lookup -/

/-- Model of `NvmfSubsystem::first`: the first subsystem of the process-wide
registry, modelled as the list of subsystem NQNs in iteration order. -/
def first (reg : List String) : Option String := reg.head?

/-- Model of `NvmfSubsystem::nqn_lookup`: the source runs
`NvmfSubsystem::first().unwrap().into_iter().find(..)`; the `unwrap`
panics when the registry is empty (modelled as `Except.error` carrying
the panic message), and the iterator restarts from the registry's first
subsystem, so the whole registry is searched for an NQN equal to
`make_nqn uuid`. -/
def nqn_lookup (reg : List String) (uuid : String) :
    Except String (Option String) :=
  match first reg with
  | none => .error "called Option::unwrap() on a None value"
  | some _ => .ok (reg.find? (fun s => s == make_nqn uuid))

end Nvmf

namespace Nvmf

/-! ## Helper lemmas for the state-change engine -/

/-- Unfolding equation for `csLoop` (its recursion is well-founded, so
proofs rewrite with this instead of `rfl`). -/
theorem csLoop_eq (r : Nat → Int) (n : Nat) :
    csLoop r n =
      if -(r n) = EBUSY ∧ n < 3 then
        let t := csLoop r (n + 1)
        { t with invocations := t.invocations + 1, sleeps := t.sleeps + 1 }
      else
        ⟨-(r n), 1, 0, n⟩ := by
  rw [csLoop]
  split <;> simp_all

/-- If every one of the first four invocations returns `-EBUSY`, the
loop performs exactly 4 invocations and 3 sleeps and ends busy. -/
theorem csLoop_allBusy (r : Nat → Int) (h : ∀ k, k ≤ 3 → r k = -EBUSY) :
    csLoop r 0 = ⟨EBUSY, 4, 3, 3⟩ := by
  have e3 : csLoop r 3 = ⟨EBUSY, 1, 0, 3⟩ := by
    rw [csLoop_eq, h 3 (by norm_num)]
    simp
  have e2 : csLoop r 2 = ⟨EBUSY, 2, 1, 3⟩ := by
    rw [csLoop_eq, h 2 (by norm_num)]
    simp [e3, EBUSY]
  have e1 : csLoop r 1 = ⟨EBUSY, 3, 2, 3⟩ := by
    rw [csLoop_eq, h 1 (by norm_num)]
    simp [e2, EBUSY]
  rw [csLoop_eq, h 0 (by norm_num)]
  simp [e1, EBUSY]

/-- The loop started at `n` with `n + m = 3` performs at most `m + 1`
invocations and `m` sleeps. -/
theorem csLoop_bounds (r : Nat → Int) :
    ∀ m n, n + m = 3 →
      (csLoop r n).invocations ≤ m + 1 ∧ (csLoop r n).sleeps ≤ m := by
  intro m
  induction m with
  | zero =>
    intro n hn
    rw [csLoop_eq]
    have : ¬(-(r n) = EBUSY ∧ n < 3) := by omega
    simp [this]
  | succ k ih =>
    intro n hn
    rw [csLoop_eq]
    by_cases hc : -(r n) = EBUSY ∧ n < 3
    · have := ih (n + 1) (by omega)
      simp only [hc, if_true, reduceIte]
      constructor <;> simp <;> omega
    · simp [hc]

end Nvmf

namespace Nvmf

/-- C4: the replica interceptor rewrites any `is_no_space` status to
SCT `Generic` and SC `CAPACITY_EXCEEDED`; independently, a CRD of 1 is
rewritten to 3; every other field of the status, and each of these
fields when its trigger does not hold, is unchanged. -/
theorem C4_replica_interceptor (st : CplStatus) :
    (st.status.is_no_space = true →
      (replica_cpl_error_cb st).sct = SPDK_NVME_SCT_GENERIC ∧
      (replica_cpl_error_cb st).sc = SPDK_NVME_SC_CAPACITY_EXCEEDED) ∧
    (st.crd = 1 → (replica_cpl_error_cb st).crd = 3) ∧
    (st.crd ≠ 1 → (replica_cpl_error_cb st).crd = st.crd) ∧
    (st.status.is_no_space = false →
      (replica_cpl_error_cb st).sct = st.sct ∧
      (replica_cpl_error_cb st).sc = st.sc) ∧
    (replica_cpl_error_cb st).p = st.p ∧
    (replica_cpl_error_cb st).m = st.m ∧
    (replica_cpl_error_cb st).dnr = st.dnr := by
  have hstat : ∀ c,
      (CplStatus.mk st.p st.sc st.sct c st.m st.dnr).status = st.status := by
    intro c
    cases st
    simp [CplStatus.status]
  unfold replica_cpl_error_cb
  by_cases h1 : st.crd = 1 <;>
    simp only [h1, if_true, if_false, reduceIte] <;>
    by_cases h2 : st.status.is_no_space = true <;>
    simp_all [hstat 3]

/-- C5: the nexus interceptor leaves a completion with CRD 0 entirely
unmodified; with CRD nonzero and a Generic `RESERVATION_CONFLICT` or
Generic `CAPACITY_EXCEEDED` status it sets CRD to 2 and changes nothing
else; for every other completion with nonzero CRD the written-back
status equals the original. -/
theorem C5_nexus_interceptor (st : CplStatus) :
    (st.crd = 0 → nexus_cpl_error_cb st = st) ∧
    (st.crd ≠ 0 →
      (st.status = .Generic SPDK_NVME_SC_RESERVATION_CONFLICT ∨
          st.status = .Generic SPDK_NVME_SC_CAPACITY_EXCEEDED) →
      nexus_cpl_error_cb st = { st with crd := 2 }) ∧
    (st.crd ≠ 0 →
      ¬(st.status = .Generic SPDK_NVME_SC_RESERVATION_CONFLICT ∨
          st.status = .Generic SPDK_NVME_SC_CAPACITY_EXCEEDED) →
      nexus_cpl_error_cb st = st) := by
  refine ⟨fun h0 => by simp [nexus_cpl_error_cb, h0], fun h0 hm => ?_,
    fun h0 hm => ?_⟩
  · rcases hm with hm | hm <;>
      simp [nexus_cpl_error_cb, h0, hm, SPDK_NVME_SC_RESERVATION_CONFLICT,
        SPDK_NVME_SC_CAPACITY_EXCEEDED]
  · unfold nexus_cpl_error_cb
    simp only [h0, reduceIte]
    split
    next sc hg =>
      rw [if_neg]
      rintro (h | h)
      · exact hm (Or.inl (by rw [hg, h]))
      · exact hm (Or.inr (by rw [hg, h]))
    next => rfl

/-- C5 witness: concrete evaluations discharging each hypothesis of
`C5_nexus_interceptor`. -/
theorem C5_nexus_interceptor_witness :
    nexus_cpl_error_cb ⟨false, 0x83, 0, 0, false, false⟩ =
      ⟨false, 0x83, 0, 0, false, false⟩ ∧
    nexus_cpl_error_cb ⟨false, 0x83, 0, 1, false, false⟩ =
      ⟨false, 0x83, 0, 2, false, false⟩ ∧
    nexus_cpl_error_cb ⟨false, 5, 0, 1, false, false⟩ =
      ⟨false, 5, 0, 1, false, false⟩ := by
  refine ⟨(C5_nexus_interceptor _).1 (by decide),
    (C5_nexus_interceptor _).2.1 (by decide) ?_,
    (C5_nexus_interceptor _).2.2 (by decide) ?_⟩
  · left
    decide
  · decide

/-- C4 witness: concrete evaluations discharging each hypothesis of
`C4_replica_interceptor`. -/
theorem C4_replica_interceptor_witness :
    ((replica_cpl_error_cb ⟨false, 28, 7, 1, false, false⟩).sct =
        SPDK_NVME_SCT_GENERIC ∧
      (replica_cpl_error_cb ⟨false, 28, 7, 1, false, false⟩).sc =
        SPDK_NVME_SC_CAPACITY_EXCEEDED) ∧
    (replica_cpl_error_cb ⟨false, 28, 7, 1, false, false⟩).crd = 3 ∧
    (replica_cpl_error_cb ⟨false, 5, 0, 2, false, false⟩).crd = 2 ∧
    ((replica_cpl_error_cb ⟨false, 5, 0, 2, false, false⟩).sct = 0 ∧
      (replica_cpl_error_cb ⟨false, 5, 0, 2, false, false⟩).sc = 5) := by
  refine ⟨(C4_replica_interceptor _).1 (by decide),
    (C4_replica_interceptor _).2.1 (by decide),
    (C4_replica_interceptor _).2.2.1 (by decide),
    (C4_replica_interceptor _).2.2.2.1 (by decide)⟩

end Nvmf

namespace Nvmf

/-- C2: the engine invokes the driving function at most 4 times with at
most 3 sleeps of 100 ms; if the function keeps returning `-EBUSY` the
result is `SubsystemBusy` with the operation name and the NQN after
exactly 4 invocations and 3 sleeps; a final `rc` of 0 makes the result
the awaited callback status (Ok on 0, `Subsystem` error otherwise); a
nonzero final `rc` other than `EBUSY` produces an initiation error that
does not depend on the callback. -/
theorem C2_change_state_retry (nqn op : String) (r cb : Nat → Int) :
    (csLoop r 0).invocations ≤ 4 ∧
    (csLoop r 0).sleeps ≤ 3 ∧
    (csLoop r 0).sleeps * 100 ≤ 300 ∧
    ((∀ k, k ≤ 3 → r k = -EBUSY) →
      (csLoop r 0).invocations = 4 ∧ (csLoop r 0).sleeps = 3 ∧
      change_state nqn op r cb = .error (.SubsystemBusy nqn op)) ∧
    ((csLoop r 0).rc = 0 →
      change_state nqn op r cb =
        if cb (csLoop r 0).lastIdx = 0 then .ok ()
        else .error (.Subsystem (cb (csLoop r 0).lastIdx) nqn
          (op ++ " failed"))) ∧
    ((csLoop r 0).rc ≠ 0 → (csLoop r 0).rc ≠ EBUSY →
      ∀ cb2 : Nat → Int,
        change_state nqn op r cb2 =
          .error (.Subsystem (csLoop r 0).rc nqn
            ("failed to initiate " ++ op))) := by
  obtain ⟨hi, hs⟩ := csLoop_bounds r 3 0 (by norm_num)
  refine ⟨hi, hs, by omega, fun hb => ?_, fun h0 => ?_, fun h1 h2 cb2 => ?_⟩
  · rw [csLoop_allBusy r hb]
    refine ⟨rfl, rfl, ?_⟩
    rw [change_state]
    simp [csLoop_allBusy r hb, EBUSY]
  · rw [change_state]
    simp only [h0, reduceIte]
  · rw [change_state]
    simp [h1, h2]

/-- C2 witness: concrete runs discharging each hypothesis of
`C2_change_state_retry`: an always-busy driver ends `SubsystemBusy`
after 4 invocations and 3 sleeps; a driver returning 0 with callback
status 0 ends `Ok`; a driver returning `-EIO` (= -5) ends with an
initiation error. -/
theorem C2_change_state_retry_witness :
    ((csLoop (fun _ => -EBUSY) 0).invocations = 4 ∧
      (csLoop (fun _ => -EBUSY) 0).sleeps = 3 ∧
      change_state "nqn-w" "pause" (fun _ => -EBUSY) (fun _ => 0) =
        .error (.SubsystemBusy "nqn-w" "pause")) ∧
    change_state "nqn-w" "pause" (fun _ => 0) (fun _ => 0) = .ok () ∧
    change_state "nqn-w" "pause" (fun _ => -5) (fun _ => 7) =
      .error (.Subsystem 5 "nqn-w" "failed to initiate pause") := by
  have h0 : csLoop (fun _ => (0 : Int)) 0 = ⟨0, 1, 0, 0⟩ := by
    rw [csLoop_eq]
    simp [EBUSY]
  have h5 : csLoop (fun _ => (-5 : Int)) 0 = ⟨5, 1, 0, 0⟩ := by
    rw [csLoop_eq]
    simp [EBUSY]
  refine ⟨(C2_change_state_retry "nqn-w" "pause" _ _).2.2.2.1
      (fun k _ => rfl), ?_, ?_⟩
  · have := (C2_change_state_retry "nqn-w" "pause" (fun _ => 0)
      (fun _ => 0)).2.2.2.2.1 (by rw [h0])
    rw [this]
    simp
  · have := (C2_change_state_retry "nqn-w" "pause" (fun _ => -5)
      (fun _ => 7)).2.2.2.2.2 (by rw [h5]; norm_num)
      (by rw [h5]; norm_num [EBUSY]) (fun _ => 7)
    rw [this, h5]
    rfl

/-- C1 counterexample: with a subsystem whose NQN is in the registry, a
`start` whose listener addition fails returns the error while the
subsystem is left in the registry (it is not destroyed), refuting the
claim that every failed `start` destroys the subsystem. -/
theorem C1_counterexample :
    isErr (start ["nqn-a"] "nqn-a" (-1) (fun _ => 0) (fun _ => 0)).1 = true ∧
    "nqn-a" ∈ (start ["nqn-a"] "nqn-a" (-1) (fun _ => 0) (fun _ => 0)).2 := by
  constructor
  · rfl
  · simp [start]

/-- C1 amended: a `start` that fails in the state transition to Active
destroys the subsystem before returning the error, removing its NQN
from the registry; a `start` whose replica-port listener addition fails
returns the `Transport` error without destroying the subsystem, which
stays in the registry; a successful `start` returns the NQN. -/
theorem C1_start_destroys_on_state_change_failure (reg : List String)
    (nqn : String) (listenRc : Int) (r cb : Nat → Int) :
    (listenRc ≠ 0 →
      start reg nqn listenRc r cb =
        (.error (.Transport listenRc "Failed to add listener"), reg)) ∧
    (listenRc = 0 → ∀ e, change_state nqn "start" r cb = .error e →
      start reg nqn listenRc r cb = (.error e, reg.erase nqn) ∧
      (reg.Nodup → nqn ∉ (start reg nqn listenRc r cb).2)) ∧
    (listenRc = 0 → change_state nqn "start" r cb = .ok () →
      start reg nqn listenRc r cb = (.ok nqn, reg)) := by
  refine ⟨fun hne => ?_, fun hz e he => ?_, fun hz hok => ?_⟩
  · simp [start, hne]
  · have hst : start reg nqn listenRc r cb = (.error e, reg.erase nqn) := by
      simp [start, hz, he]
    exact ⟨hst, fun hnd => by rw [hst]; exact hnd.not_mem_erase⟩
  · simp [start, hz, hok]

/-- C1 witness: concrete runs discharging each hypothesis of
`C1_start_destroys_on_state_change_failure`: a failed listener addition
leaves the registry unchanged; a busy state change removes the NQN; a
clean run returns the NQN. -/
theorem C1_start_witness :
    start ["nqn-b"] "nqn-b" (-1) (fun _ => 0) (fun _ => 0) =
      (.error (.Transport (-1) "Failed to add listener"), ["nqn-b"]) ∧
    (start ["nqn-b"] "nqn-b" 0 (fun _ => -EBUSY) (fun _ => 0) =
      (.error (.SubsystemBusy "nqn-b" "start"), []) ∧
      "nqn-b" ∉ (start ["nqn-b"] "nqn-b" 0 (fun _ => -EBUSY) (fun _ => 0)).2) ∧
    start ["nqn-b"] "nqn-b" 0 (fun _ => 0) (fun _ => 0) =
      (.ok "nqn-b", ["nqn-b"]) := by
  have hcs : csLoop (fun _ : Nat => -EBUSY) 0 = ⟨EBUSY, 4, 3, 3⟩ :=
    csLoop_allBusy _ (fun k _ => rfl)
  have hbusy : change_state "nqn-b" "start" (fun _ => -EBUSY) (fun _ => 0) =
      .error (.SubsystemBusy "nqn-b" "start") := by
    rw [change_state, hcs]
    simp [EBUSY]
  have hok : change_state "nqn-b" "start" (fun _ => 0) (fun _ => 0) =
      .ok () := by
    rw [change_state, csLoop_eq]
    simp [EBUSY]
  refine ⟨(C1_start_destroys_on_state_change_failure _ _ _ _ _).1
      (by norm_num), ?_, ?_⟩
  · have := (C1_start_destroys_on_state_change_failure ["nqn-b"] "nqn-b" 0
      (fun _ => -EBUSY) (fun _ => 0)).2.1 rfl _ hbusy
    exact ⟨by rw [this.1]; rfl, this.2 (by simp)⟩
  · exact (C1_start_destroys_on_state_change_failure _ _ _ _ _).2.2 rfl hok

end Nvmf

namespace Nvmf

/-- C6: a `destroy_unsafe` while destruction is already in progress
performs no destruction and returns `-EALREADY`; with the flag unset it
invokes the foreign destroy; the first of two successive calls returns
0 and the second returns `-EALREADY`. -/
theorem C6_destroy_unsafe_idempotent (s : DSubsys) :
    (s.destroying = true → destroy_unsafe s = (-EALREADY, s)) ∧
    (s.destroying = false →
      destroy_unsafe s = spdk_nvmf_subsystem_destroy s ∧
      ( destroy_unsafe s).1 = 0 ∧
      ( destroy_unsafe ( destroy_unsafe s).2).1 = -EALREADY) := by
  constructor
  · intro h
    simp [ destroy_unsafe, h]
  · intro h
    simp [ destroy_unsafe, h, spdk_nvmf_subsystem_destroy]

/-- C6 witness: concrete subsystems discharging each hypothesis of
`C6_destroy_unsafe_idempotent`. -/
theorem C6_destroy_unsafe_witness :
    destroy_unsafe ⟨true⟩ = (-EALREADY, ⟨true⟩) ∧
    ( destroy_unsafe ⟨false⟩).1 = 0 ∧
    ( destroy_unsafe ( destroy_unsafe ⟨false⟩).2).1 = -EALREADY :=
  ⟨(C6_destroy_unsafe_idempotent ⟨true⟩).1 rfl,
    ((C6_destroy_unsafe_idempotent ⟨false⟩).2 rfl).2.1,
    ((C6_destroy_unsafe_idempotent ⟨false⟩).2 rfl).2.2⟩

/-- C10: `add_namespace` passes the bdev's UUID bytes as the NGUID of
the namespace options handed to the foreign add-namespace call, fails
with `Namespace` (carrying the bdev name) exactly when the foreign call
returns an NSID < 1, and returns `Ok` otherwise. -/
theorem C10_add_namespace_nguid_and_nsid (bdevName : String)
    (bdevUuid : List Nat) (ptpl : Option String)
    (add_ns_ext : NsOpts → Option String → Int) :
    (add_namespace bdevName bdevUuid ptpl add_ns_ext).2.nguid = bdevUuid ∧
    ((add_namespace bdevName bdevUuid ptpl add_ns_ext).1 =
        .error (.Namespace bdevName "failed to add namespace ID") ↔
      add_ns_ext (add_namespace bdevName bdevUuid ptpl add_ns_ext).2 ptpl
        < 1) ∧
    ((add_namespace bdevName bdevUuid ptpl add_ns_ext).1 = .ok () ↔
      ¬ add_ns_ext (add_namespace bdevName bdevUuid ptpl add_ns_ext).2 ptpl
          < 1) := by
  by_cases h : add_ns_ext (mk_ns_opts bdevUuid) ptpl < 1 <;>
    simp [add_namespace, h] <;> simp [mk_ns_opts]

/-- C7 counterexample: with the ANA gate enabled
(`NEXUS_NVMF_ANA_ENABLE = "1"`) and a failing foreign
`set_ana_reporting` call, `try_from_with` returns the error while the
created subsystem is left in place (not destroyed), refuting the claim
that every post-creation failure destroys the subsystem. -/
theorem C7_counterexample :
    isErr (try_from_with "bd" [1] false false 0 0 (some "1") (-22) none
      (fun _ _ => 1)).1 = true ∧
    (try_from_with "bd" [1] false false 0 0 (some "1") (-22) none
      (fun _ _ => 1)).2.1 = true ∧
    (try_from_with "bd" [1] false false 0 0 (some "1") (-22) none
      (fun _ _ => 1)).2.2 = false :=
  ⟨rfl, rfl, rfl⟩

/-- C7 amended: an already-claimed bdev fails with
`CreateTarget "already shared"` and creates nothing; a namespace-add
failure after successful creation destroys the created subsystem
before the error is returned; a failure of `set_ana_reporting`
propagates its error without destroying the created subsystem. -/
theorem C7_try_from_with_cleanup (bdevName : String) (bdevUuid : List Nat)
    (claimed createNull : Bool) (snRc mnRc : Int) (env : Option String)
    (anaRc : Int) (ptpl : Option String)
    (add_ns_ext : NsOpts → Option String → Int) :
    (claimed = true →
      try_from_with bdevName bdevUuid claimed createNull snRc mnRc env anaRc
          ptpl add_ns_ext =
        (.error (.CreateTarget "already shared"), false, false)) ∧
    (claimed = false → createNull = false → snRc = 0 → mnRc = 0 →
      set_ana_reporting env (make_nqn bdevName) false anaRc = .ok () →
      add_ns_ext (mk_ns_opts bdevUuid) ptpl < 1 →
      try_from_with bdevName bdevUuid claimed createNull snRc mnRc env anaRc
          ptpl add_ns_ext =
        (.error (.Namespace bdevName "failed to add namespace ID"),
          true, true)) ∧
    (claimed = false → createNull = false → snRc = 0 → mnRc = 0 →
      ∀ e, set_ana_reporting env (make_nqn bdevName) false anaRc = .error e →
      try_from_with bdevName bdevUuid claimed createNull snRc mnRc env anaRc
          ptpl add_ns_ext = (.error e, true, false)) := by
  refine ⟨fun hc => by simp [try_from_with, hc],
    fun hc hn hs hm hana hns => ?_, fun hc hn hs hm e hana => ?_⟩
  · simp [try_from_with, hc, hn, hs, hm, new, hana, add_namespace, hns]
  · simp [try_from_with, hc, hn, hs, hm, new, hana]

/-- C7 witness: concrete runs discharging each hypothesis of
`C7_try_from_with_cleanup`: a claimed bdev; a namespace-add failure
(gate off, foreign NSID 0) which destroys; an ANA failure (gate on,
foreign errno -22) which does not destroy. -/
theorem C7_try_from_with_witness :
    try_from_with "bd" [1] true false 0 0 none 0 none (fun _ _ => 1) =
      (.error (.CreateTarget "already shared"), false, false) ∧
    try_from_with "bd" [1] false false 0 0 none 0 none (fun _ _ => 0) =
      (.error (.Namespace "bd" "failed to add namespace ID"), true, true) ∧
    try_from_with "bd" [1] false false 0 0 (some "1") (-22) none
        (fun _ _ => 1) =
      (.error (.Subsystem (-22) (make_nqn "bd")
        "failed to set ANA reporting, enable false"), true, false) :=
  ⟨(C7_try_from_with_cleanup "bd" [1] true false 0 0 none 0 none
      (fun _ _ => 1)).1 rfl,
    (C7_try_from_with_cleanup "bd" [1] false false 0 0 none 0 none
      (fun _ _ => 0)).2.1 rfl rfl rfl rfl rfl (by norm_num),
    (C7_try_from_with_cleanup "bd" [1] false false 0 0 (some "1") (-22) none
      (fun _ _ => 1)).2.2 rfl rfl rfl rfl _ rfl⟩

/-- C8: `nqn_lookup` on an empty registry panics (the `unwrap` of
`first()`), instead of returning `None` as the claim requires; on any
non-empty registry it returns `Some` exactly for a subsystem whose NQN
equals `make_nqn uuid`, found by searching the registry. -/
theorem C8_nqn_lookup_panics_on_empty (uuid : String) :
    nqn_lookup [] uuid = .error "called Option::unwrap() on a None value" ∧
    (∀ (reg : List String), reg ≠ [] →
      nqn_lookup reg uuid = .ok (reg.find? (fun s => s == make_nqn uuid)) ∧
      ((reg.find? (fun s => s == make_nqn uuid)).isSome ↔
        make_nqn uuid ∈ reg)) := by
  refine ⟨rfl, fun reg hne => ?_⟩
  match reg, hne with
  | a :: l, _ =>
    refine ⟨rfl, ?_⟩
    rw [List.find?_isSome]
    constructor
    · rintro ⟨x, hx, he⟩
      rw [show x = make_nqn uuid from by simpa using he] at hx
      exact hx
    · intro hm
      exact ⟨make_nqn uuid, hm, by simp⟩

/-- C8 witness: concrete registries discharging the hypothesis of
`C8_nqn_lookup_panics_on_empty`: an empty registry panics; a singleton
registry holding the looked-up NQN returns it; one holding another NQN
returns `none`. -/
theorem C8_nqn_lookup_witness :
    nqn_lookup [] "u1" = .error "called Option::unwrap() on a None value" ∧
    nqn_lookup [make_nqn "u1"] "u1" = .ok (some (make_nqn "u1")) ∧
    nqn_lookup ["other"] "u1" = .ok none := by
  refine ⟨(C8_nqn_lookup_panics_on_empty "u1").1, ?_, ?_⟩
  · rw [((C8_nqn_lookup_panics_on_empty "u1").2 [make_nqn "u1"]
      (by simp)).1]
    simp
  · rw [((C8_nqn_lookup_panics_on_empty "u1").2 ["other"] (by simp)).1]
    rfl

end Nvmf

namespace Nvmf

/-- A colon-free list is a single split segment. -/
theorem splitColon_no_colon (xs : List Char) (h : ':' ∉ xs) :
    splitColon xs = [xs] := by
  induction xs with
  | nil => rfl
  | cons c cs ih =>
    have hc : ¬c = ':' := fun hh => h (by simp [hh])
    have hcs : ':' ∉ cs := fun hh => h (List.mem_cons_of_mem _ hh)
    rw [splitColon]
    rw [if_neg hc, ih hcs]

/-- Splitting a list whose head part is colon-free peels that part. -/
theorem splitColon_append (xs ys : List Char) (h : ':' ∉ xs) :
    splitColon (xs ++ ':' :: ys) = xs :: splitColon ys := by
  induction xs with
  | nil => simp [splitColon]
  | cons c cs ih =>
    have hc : ¬c = ':' := fun hh => h (by simp [hh])
    have hcs : ':' ∉ cs := fun hh => h (List.mem_cons_of_mem _ hh)
    rw [List.cons_append, splitColon, if_neg hc, ih hcs]

/-- The function `splitColon` never returns the empty list. -/
theorem splitColon_ne_nil (xs : List Char) : splitColon xs ≠ [] := by
  induction xs with
  | nil => simp [splitColon]
  | cons c cs ih =>
    rw [splitColon]
    split
    · simp
    · split
      · simp
      · simp

/-- C9 counterexample: a uuid containing a colon does not round-trip —
the NQN made from `"a:b"` splits into three parts, so the parse used by
`NqnTarget::lookup` rejects it instead of recovering the uuid. -/
theorem C9_counterexample :
    parse_nqn (make_nqn "a:b").data ≠ some "a:b".data ∧
    parse_nqn (make_nqn "a:b").data = none := by
  constructor
  · decide
  · decide

/-- C9 amended: `make_nqn uuid` is the fixed constant followed by `':'`
followed by the uuid, is stable, and round-trips through the parse of
`NqnTarget::lookup` for every uuid that contains no colon (a uuid
containing a colon yields more than two parts and is rejected). -/
theorem C9_make_nqn_roundtrip (id : String) :
    make_nqn id = NVME_NQN_PFX ++ ":" ++ id ∧
    (∀ id2 : String, id = id2 → make_nqn id = make_nqn id2) ∧
    (':' ∉ id.data → parse_nqn (make_nqn id).data = some id.data) := by
  refine ⟨rfl, fun id2 he => by rw [he], fun hnc => ?_⟩
  have hd : (make_nqn id).data = NVME_NQN_PFX.data ++ ':' :: id.data := rfl
  rw [parse_nqn, hd, splitColon_append _ _ (by decide),
    splitColon_no_colon _ hnc]
  simp

/-- C9 witness: the colon-free uuid `"abc"` round-trips. -/
theorem C9_make_nqn_roundtrip_witness :
    parse_nqn (make_nqn "abc").data = some "abc".data :=
  (C9_make_nqn_roundtrip "abc").2.2 (by decide)

end Nvmf

namespace Nvmf

/-! ## Helper lemmas for the ACL reconcile path -/

/-- Membership after the idempotent foreign host addition. -/
theorem mem_addHost (hs : List String) (h x : String) :
    x ∈ addHost hs h ↔ x ∈ hs ∨ x = h := by
  unfold addHost
  by_cases hc : hs.contains h
  · rw [if_pos hc]
    have hm : h ∈ hs := by simpa using hc
    constructor
    · exact Or.inl
    · rintro (hx | rfl)
      · exact hx
      · exact hm
  · rw [if_neg hc]
    simp

/-- The idempotent foreign host addition preserves duplicate-freedom. -/
theorem nodup_addHost (hs : List String) (h : String) (d : hs.Nodup) :
    (addHost hs h).Nodup := by
  unfold addHost
  by_cases hc : hs.contains h
  · rwa [if_pos hc]
  · rw [if_neg hc]
    have hm : h ∉ hs := by simpa using hc
    simp [List.nodup_append, d, hm]

/-- Running `allow_hosts` over NUL-free hosts succeeds, leaves the disconnect
log alone, and makes the allowed set the union of the old set and the
given hosts, preserving duplicate-freedom. -/
theorem allow_hosts_ok (S : List String) :
    ∀ st : AclState, (∀ h ∈ S, hasNul h = false) →
      (allow_hosts st S).2 = none ∧
      (allow_hosts st S).1.disconnects = st.disconnects ∧
      (∀ x, x ∈ (allow_hosts st S).1.hosts ↔ x ∈ st.hosts ∨ x ∈ S) ∧
      (st.hosts.Nodup → (allow_hosts st S).1.hosts.Nodup) := by
  induction S with
  | nil =>
    intro st _
    simp [allow_hosts]
  | cons h t ih =>
    intro st hn
    have hh : hasNul h = false := hn h (by simp)
    have hstep : allow_hosts st (h :: t) =
        allow_hosts ⟨addHost st.hosts h, st.disconnects⟩ t := by
      rw [allow_hosts]
      simp [allow_host, hh]
    obtain ⟨h1, h2, h3, h4⟩ := ih ⟨addHost st.hosts h, st.disconnects⟩
      (fun x hx => hn x (by simp [hx]))
    rw [hstep]
    refine ⟨h1, h2, fun x => ?_, fun nd => h4 (nodup_addHost _ _ nd)⟩
    rw [h3 x]
    simp only [mem_addHost, List.mem_cons]
    tauto

/-- The removal loop over NUL-free snapshotted hosts succeeds, erases
each of them from the allowed set in order, and appends each of them to
the disconnect log. -/
theorem disconnectLoop_ok (L : List String) :
    ∀ st : AclState, (∀ h ∈ L, hasNul h = false) →
      disconnectLoop st L =
        (⟨L.foldl List.erase st.hosts, st.disconnects ++ L⟩, none) := by
  induction L with
  | nil =>
    intro st _
    simp [disconnectLoop]
  | cons h t ih =>
    intro st hn
    rw [disconnectLoop, if_neg (by simp [hn h (by simp)]),
      ih ⟨st.hosts.erase h, st.disconnects ++ [h]⟩
        (fun x hx => hn x (by simp [hx]))]
    simp

/-- Folding `erase` over a duplicate-free list removes exactly the
erased elements. -/
theorem mem_foldl_erase (L : List String) :
    ∀ hs : List String, hs.Nodup →
      (L.foldl List.erase hs).Nodup ∧
      (∀ x, x ∈ L.foldl List.erase hs ↔ x ∈ hs ∧ x ∉ L) := by
  induction L with
  | nil =>
    intro hs d
    simp [d]
  | cons h t ih =>
    intro hs d
    obtain ⟨d2, hm⟩ := ih (hs.erase h) (d.erase h)
    refine ⟨d2, fun x => ?_⟩
    rw [List.foldl_cons, hm x, d.mem_erase_iff]
    simp only [List.mem_cons]
    tauto

end Nvmf

namespace Nvmf

/-- C3 counterexample: a host string containing an interior NUL byte
makes `set_allowed_hosts` fail with `HostCstrNul` (the `CString`
conversion of `allow_host`), leaving the allowed-host set without that
member — so the post-state is not a superset of the given list,
refuting the claim for arbitrary non-empty host lists. -/
theorem C3_counterexample :
    (set_allowed_hosts ⟨[], []⟩ [String.mk ['a', Char.ofNat 0, 'b']]).2 =
      some (.HostCstrNul (String.mk ['a', Char.ofNat 0, 'b'])) ∧
    String.mk ['a', Char.ofNat 0, 'b'] ∉
      (set_allowed_hosts ⟨[], []⟩
        [String.mk ['a', Char.ofNat 0, 'b']]).1.hosts := by
  constructor
  · decide
  · decide

/-- C3 amended: for every non-empty host list `S` whose entries are
free of interior NUL bytes (and a prior ACL of NUL-free, duplicate-free
hosts with a fresh disconnect log), `set_allowed_hosts` succeeds and
leaves the allowed-host set a superset of `S`; every host of the prior
ACL not in `S` is absent afterwards and receives exactly one
`disconnect_host` call; hosts in `S` receive none; an empty `S` is a
no-op returning `Ok` with the state unchanged. -/
theorem C3_set_allowed_hosts_reconcile (st : AclState) (S : List String)
    (hS : S ≠ []) (hSnul : ∀ h ∈ S, hasNul h = false)
    (hPnul : ∀ h ∈ st.hosts, hasNul h = false)
    (hNd : st.hosts.Nodup) (hLog : st.disconnects = []) :
    (set_allowed_hosts st S).2 = none ∧
    (∀ h ∈ S, h ∈ (set_allowed_hosts st S).1.hosts) ∧
    (∀ h ∈ st.hosts, h ∉ S →
      h ∉ (set_allowed_hosts st S).1.hosts ∧
      (set_allowed_hosts st S).1.disconnects.count h = 1) ∧
    (∀ h ∈ S, (set_allowed_hosts st S).1.disconnects.count h = 0) ∧
    (∀ st2 : AclState, set_allowed_hosts st2 [] = (st2, none)) := by
  obtain ⟨e1, e2, e3, e4⟩ := allow_hosts_ok S st hSnul
  have hA : allow_hosts st S = ((allow_hosts st S).1, none) := by
    rw [← e1]
  have hne : S.isEmpty = false := by
    cases S with
    | nil => exact absurd rfl hS
    | cons a l => rfl
  have htd_nul : ∀ h ∈ (allow_hosts st S).1.hosts.filter
      (fun h => !S.contains h), hasNul h = false := by
    intro h hh
    rcases (e3 h).mp (List.mem_of_mem_filter hh) with hp | hs
    · exact hPnul h hp
    · exact hSnul h hs
  have hstep : set_allowed_hosts st S =
      disconnectLoop (allow_hosts st S).1
        ((allow_hosts st S).1.hosts.filter (fun h => !S.contains h)) := by
    rw [set_allowed_hosts, if_neg (by simp [hne]), hA]
  rw [hstep, disconnectLoop_ok _ _ htd_nul]
  obtain ⟨dF, hF⟩ := mem_foldl_erase
    ((allow_hosts st S).1.hosts.filter (fun h => !S.contains h))
    (allow_hosts st S).1.hosts (e4 hNd)
  have hdT : ((allow_hosts st S).1.hosts.filter
      (fun h => !S.contains h)).Nodup := (e4 hNd).filter _
  have hmemT : ∀ x, x ∈ (allow_hosts st S).1.hosts.filter
      (fun h => !S.contains h) ↔ x ∈ (allow_hosts st S).1.hosts ∧ x ∉ S := by
    intro x
    rw [List.mem_filter]
    simp
  refine ⟨rfl, fun h hh => ?_, fun h hp hns => ?_, fun h hh => ?_,
    fun st2 => by simp [set_allowed_hosts]⟩
  · rw [hF h]
    refine ⟨(e3 h).mpr (Or.inr hh), ?_⟩
    rw [hmemT h]
    exact fun hc => hc.2 hh
  · have hmem : h ∈ (allow_hosts st S).1.hosts := (e3 h).mpr (Or.inl hp)
    have hT : h ∈ (allow_hosts st S).1.hosts.filter
        (fun h => !S.contains h) := (hmemT h).mpr ⟨hmem, hns⟩
    constructor
    · rw [hF h]
      exact fun hc => hc.2 hT
    · rw [e2, hLog]
      simpa using List.count_eq_one_of_mem hdT hT
  · have hT : h ∉ (allow_hosts st S).1.hosts.filter
        (fun h => !S.contains h) := fun hc => ((hmemT h).mp hc).2 hh
    rw [e2, hLog]
    simpa using List.count_eq_zero_of_not_mem hT

/-- C3 witness: the spec's scenario S3 — prior ACL `{A, B}`, call with
`[B, C]`; afterwards `B` and `C` are allowed, `A` is absent with
exactly one disconnect, and `B`, `C` receive no disconnect; the empty
call is a no-op. -/
theorem C3_set_allowed_hosts_witness :
    (set_allowed_hosts ⟨["A", "B"], []⟩ ["B", "C"]).2 = none ∧
    "B" ∈ (set_allowed_hosts ⟨["A", "B"], []⟩ ["B", "C"]).1.hosts ∧
    "C" ∈ (set_allowed_hosts ⟨["A", "B"], []⟩ ["B", "C"]).1.hosts ∧
    "A" ∉ (set_allowed_hosts ⟨["A", "B"], []⟩ ["B", "C"]).1.hosts ∧
    (set_allowed_hosts ⟨["A", "B"], []⟩ ["B", "C"]).1.disconnects.count "A"
      = 1 ∧
    (set_allowed_hosts ⟨["A", "B"], []⟩ ["B", "C"]).1.disconnects.count "B"
      = 0 ∧
    (set_allowed_hosts ⟨["A", "B"], []⟩ ["B", "C"]).1.disconnects.count "C"
      = 0 ∧
    set_allowed_hosts ⟨["A", "B"], []⟩ [] = (⟨["A", "B"], []⟩, none) := by
  obtain ⟨w1, w2, w3, w4, w5⟩ := C3_set_allowed_hosts_reconcile
    ⟨["A", "B"], []⟩ ["B", "C"] (by decide) (by decide) (by decide)
    (by decide) rfl
  obtain ⟨w3a, w3c⟩ := w3 "A" (by decide) (by decide)
  exact ⟨w1, w2 "B" (by decide), w2 "C" (by decide), w3a, w3c,
    w4 "B" (by decide), w4 "C" (by decide), w5 ⟨["A", "B"], []⟩⟩

end Nvmf
